import Mathlib

/-!
Shallow embedding of the DayReview activity tracker (Python), covering the
categorizer, the productivity ratio analysis, the local analysis strategy,
the window/input monitors' pure cores, and the daily-summary persistence.
Python floats are modelled by exact rationals, except where a claim hinges
on binary floating point, where a correctly-rounded binary64 model is used.
-/

namespace DayReview

/-- Round a rational to the nearest integer with ties to even — the tie
rule of both IEEE-754 round-to-nearest and Python's built-in round. -/
def roundHalfEven (q : ℚ) : ℤ :=
  let f : ℤ := ⌊q⌋
  let frac : ℚ := q - f
  if frac < 1/2 then f
  else if 1/2 < frac then f + 1
  else if f % 2 = 0 then f else f + 1

/-- Python round(x, 1): scale by ten, round to nearest (ties to even),
scale back. -/
def round1 (q : ℚ) : ℚ := (roundHalfEven (q * 10) : ℚ) / 10

/-- Python int(x) on a real value: truncation toward zero. -/
def pyInt (q : ℚ) : ℤ := if 0 ≤ q then ⌊q⌋ else ⌈q⌉

/-- Python str.lower(): per-character lowering.  The repository's keywords
and inputs are ASCII or Chinese, on which Char.toLower agrees with Python. -/
def pyLower (s : String) : String := ⟨s.data.map Char.toLower⟩

/-- Python `needle in haystack` on strings: contiguous substring test. -/
def containsSub (needle haystack : String) : Bool :=
  decide (needle.data <:+: haystack.data)

/-- APP_CATEGORIES from src/config.py, as an association list in the
source's key order. -/
def APP_CATEGORIES : List (String × List String) :=
  [("work",
    ["code", "vscode", "visual studio", "pycharm", "idea", "webstorm",
     "sublime", "notepad++", "vim", "nvim", "atom",
     "word", "excel", "powerpoint", "wps", "outlook",
     "terminal", "cmd", "powershell", "windowsterminal",
     "postman", "insomnia", "datagrip", "navicat", "dbeaver",
     "figma", "sketch", "photoshop", "illustrator",
     "notion", "obsidian", "typora", "markdown",
     "git", "github desktop", "sourcetree",
     "slack", "teams", "zoom", "腾讯会议", "钉钉"]),
   ("game",
    ["steam", "epic games", "origin", "uplay", "battle.net",
     "league of legends", "lol", "英雄联盟",
     "genshin", "原神", "崩坏", "honkai",
     "minecraft", "我的世界",
     "csgo", "cs2", "counter-strike",
     "valorant", "无畏契约",
     "apex", "pubg", "绝地求生",
     "王者荣耀", "和平精英",
     "dota", "overwatch", "守望先锋",
     "elden ring", "艾尔登法环",
     "game", "游戏"]),
   ("entertainment",
    ["bilibili", "哔哩哔哩", "b站",
     "youtube", "netflix", "爱奇艺", "iqiyi", "优酷", "youku", "腾讯视频",
     "抖音", "tiktok", "快手",
     "spotify", "网易云", "cloudmusic", "qq音乐", "酷狗", "酷我",
     "potplayer", "vlc", "mpv", "kmplayer",
     "twitch", "虎牙", "斗鱼", "直播"]),
   ("social",
    ["微信", "wechat", "weixin",
     "qq", "tim",
     "discord", "telegram", "signal",
     "twitter", "x", "微博", "weibo",
     "instagram", "facebook",
     "小红书", "知乎", "zhihu"]),
   ("browse",
    ["chrome", "firefox", "edge", "safari", "opera", "brave",
     "浏览器", "browser"])]

/-- The priority_order list inside Categorizer.categorize. -/
def priority_order : List String := ["game", "work", "entertainment", "social", "browse"]

/-- The combined lower-cased match string of Categorizer.categorize:
f-string of process_lower and title_lower separated by one space.
(Python's `s.lower() if s else ""` equals `s.lower()` on every string.) -/
def combinedOf (process_name window_title : String) : String :=
  pyLower process_name ++ " " ++ pyLower window_title

/-- The inner keyword loop of Categorizer.categorize for one category:
true iff some keyword of self.categories.get(category, []) occurs
(lower-cased) in the combined string. -/
def matchesCat (category : String) (combined : String) : Bool :=
  ((APP_CATEGORIES.lookup category).getD []).any
    (fun keyword => containsSub (pyLower keyword) combined)

/-- Categorizer.categorize from src/analyzers/categorizer.py with the
default rules: first category of priority_order with a keyword match wins,
otherwise "other".  The two nested for-loops with early return are rendered
as List.find? over priority_order with List.any over each keyword list. -/
def categorize (process_name : String) (window_title : String) : String :=
  match priority_order.find?
      (fun category => matchesCat category (combinedOf process_name window_title)) with
  | some category => category
  | none => "other"

/-- Modelled from the spec's words (§4.3), as the refinement target for the
categorization claim: test game, work, entertainment, social, browse in
that fixed order and return the first whose keyword list contains a
case-insensitive substring match, else "other". -/
def categorizeSpec (process_name : String) (window_title : String) : String :=
  let combined := combinedOf process_name window_title
  if matchesCat "game" combined then "game"
  else if matchesCat "work" combined then "work"
  else if matchesCat "entertainment" combined then "entertainment"
  else if matchesCat "social" combined then "social"
  else if matchesCat "browse" combined then "browse"
  else "other"

/-- A category→minutes mapping restricted to the six keys the categorizer
can produce (the shape of every mapping the pipeline builds). -/
structure CategoryMinutes where
  work : ℚ
  game : ℚ
  entertainment : ℚ
  social : ℚ
  browse : ℚ
  other : ℚ
deriving DecidableEq

/-- Python sum(category_minutes.values()) on the six-key mapping. -/
def totalMinutes (cm : CategoryMinutes) : ℚ :=
  cm.work + cm.game + cm.entertainment + cm.social + cm.browse + cm.other

/-- Result mapping of Categorizer.analyze_productivity. -/
structure ProductivityResult where
  productivity_ratio : ℚ
  leisure_ratio : ℚ
  work_focus_score : ℚ
  balance_score : ℚ
deriving DecidableEq

/-- Categorizer.analyze_productivity from src/analyzers/categorizer.py. -/
def analyze_productivity (category_minutes : CategoryMinutes) : ProductivityResult :=
  let work := category_minutes.work
  let game := category_minutes.game
  let entertainment := category_minutes.entertainment
  let social := category_minutes.social
  let browse := category_minutes.browse
  let other := category_minutes.other
  let total := work + game + entertainment + social + browse + other
  if total = 0 then
    { productivity_ratio := 0, leisure_ratio := 0, work_focus_score := 0, balance_score := 50 }
  else
    let productivity_ratio := work / total * 100
    let leisure_ratio := (game + entertainment) / total * 100
    let work_related := work + social + browse
    let work_focus_score := if work_related > 0 then work / work_related * 100 else 0
    let work_diff := |productivity_ratio - 60|
    let leisure_diff := |leisure_ratio - 30|
    let balance_score := max 0 (100 - work_diff - leisure_diff)
    { productivity_ratio := round1 productivity_ratio,
      leisure_ratio := round1 leisure_ratio,
      work_focus_score := round1 work_focus_score,
      balance_score := round1 balance_score }

/-- The analyzer input assembled by generate_daily_report in src/main.py. -/
structure DailyStats where
  category_minutes : CategoryMinutes
  avg_activity_score : ℚ
  productivity_analysis : ProductivityResult
deriving DecidableEq

/-- The four-field result of AIAnalyzer.analyze_daily_data. -/
structure AnalysisResult where
  mood_score : ℚ
  stress_score : ℚ
  summary : String
  wechat_post : String
deriving DecidableEq

/-- AIAnalyzer._generate_local_post from src/analyzers/ai_analyzer.py.
random.choice over the selected pool is rendered with an injected index
(pick, reduced modulo the pool size), per the spec's injectable-randomness
requirement. -/
def _generate_local_post (work game entertainment total activity : ℚ) (pick : ℕ) : String :=
  if total = 0 then "今天好像没怎么用电脑 📱\n难得的数字断联日"
  else
    let work_hours : ℤ := ⌊work / 60⌋
    let _game_hours : ℤ := ⌊game / 60⌋
    let posts : List String :=
      if work > 480 then
        ["今日肝度: MAX 💪\n效率指数拉满的一天",
         "又是被工作填满的一天\n但充实的感觉还不错 ✨",
         "专注模式: ON\n今日战绩: " ++ toString work_hours ++ "h+"]
      else if game > 180 then
        ["今天的快乐源泉 🎮\n偶尔也要给自己放个假",
         "工作是为了更好的生活\n游戏是生活的一部分 ✌️",
         "充电完毕 🔋\n明天继续加油"]
      else if work > 240 ∧ game > 60 then
        ["工作与摸鱼的平衡艺术 ⚖️\n今天很满意",
         "认真工作，快乐生活\n这就是成年人的日常",
         "效率满满的一天 ✨\n劳逸结合才是王道"]
      else if entertainment > 120 then
        ["今日份的放松时光 🎬\n生活需要仪式感",
         "偷得浮生半日闲 ☕\n享受当下"]
      else
        ["普通但美好的一天 ☀️",
         "日常进行中...\n一切都是最好的安排",
         "今日活力值: " ++ String.mk (List.replicate (min 5 (pyInt (activity / 20))).toNat '⭐')]
    (posts.get? (pick % posts.length)).getD ""

/-- AIAnalyzer._local_analysis from src/analyzers/ai_analyzer.py: the
deterministic local strategy (caption randomness injected via pick). -/
def _local_analysis (stats : DailyStats) (pick : ℕ) : AnalysisResult :=
  let category_minutes := stats.category_minutes
  let productivity := stats.productivity_analysis
  let avg_activity := stats.avg_activity_score
  let work := category_minutes.work
  let game := category_minutes.game
  let entertainment := category_minutes.entertainment
  let total := totalMinutes category_minutes
  let mood_score : ℚ :=
    if total = 0 then 5
    else
      let leisure_ratio := (game + entertainment) / total
      min 10 (5 + leisure_ratio * 5)
  let stress_score : ℚ :=
    if total = 0 then 3
    else
      let work_ratio := work / total
      min 10 (3 + work_ratio * 4 + avg_activity / 25)
  let summary : String :=
    if work > 360 then "今天工作时间较长，注意休息"
    else if game > 180 then "今天游戏时间较多，享受生活"
    else if productivity.balance_score > 70 then "今天工作与休息比较均衡"
    else "普通的一天"
  let wechat_post := _generate_local_post work game entertainment total avg_activity pick
  { mood_score := round1 mood_score,
    stress_score := round1 stress_score,
    summary := summary,
    wechat_post := wechat_post }

/-- AIAnalyzer.analyze_daily_data from src/analyzers/ai_analyzer.py.
The two remote calls are modelled by their outcome (Except: ok = parsed
reply, error = any raised exception, covering network, auth and parse
failures); the surrounding try/except is the match on that outcome. -/
def analyze_daily_data (provider : String)
    (openai_response anthropic_response : Except String AnalysisResult)
    (daily_stats : DailyStats) (pick : ℕ) : AnalysisResult :=
  let attempt : Except String AnalysisResult :=
    if provider = "openai" then openai_response
    else if provider = "anthropic" then anthropic_response
    else Except.ok (_local_analysis daily_stats pick)
  match attempt with
  | Except.ok result => result
  | Except.error _ => _local_analysis daily_stats pick

/-- MIN_ACTIVITY_DURATION from src/config.py (seconds). -/
def MIN_ACTIVITY_DURATION : ℚ := 3

/-- WindowMonitor._record_window_activity from src/monitors/window_monitor.py,
restricted to its pure core: given the finalized window's start and end
times (in seconds), it either drops the segment (duration below
min_duration) or invokes the callback with duration_seconds =
int(duration).  none = callback not invoked; some d = exactly one segment
with duration_seconds d. -/
def _record_window_activity (min_duration start_time end_time : ℚ) : Option ℤ :=
  let duration := end_time - start_time
  if duration < min_duration then none
  else some (pyInt duration)

/-! ### Binary64 model for the input monitor's mouse-move sub-counter

InputMonitor._on_mouse_move executes `self._mouse_move_count += 0.1` on a
Python float, so the sub-counter accumulates with IEEE-754 binary64
round-to-nearest-even at every addition.  Every value this counter can
hold is a nonnegative multiple of 2^(-56): the literal 0.1 rounds to
3602879701896397×2^(-55), every partial sum at or above 2^(-4) has unit
in the last place at least 2^(-56), and binary64 represents any n×2^(-56)
with n < 2^53 exactly.  The sub-counter is therefore represented here as
the natural number n with value n×2^(-56), and rounding to 53 significant
bits is performed on n — an exact model of the float arithmetic the code
performs on this state. -/

/-- Fuelled ⌊log₂ n⌋ for n ≥ 1 (number of bits of n, minus one). -/
def natLog2Aux : ℕ → ℕ → ℕ
  | 0, _ => 0
  | fuel + 1, n => if n < 2 then 0 else natLog2Aux fuel (n / 2) + 1

/-- Round num/den to the nearest integer, ties to even. -/
def roundHalfEvenNat (num den : ℕ) : ℕ :=
  let q := num / den
  let r := num % den
  if 2 * r < den then q
  else if den < 2 * r then q + 1
  else if q % 2 = 0 then q else q + 1

/-- IEEE-754 binary64 rounding (round to nearest, ties to even, 53-bit
significand) of the value n×2^(-56), returned in the same 2^(-56) scale.
A value with at most 53 significant bits is exact; otherwise the excess
low bits are rounded away. -/
def flScaled (n : ℕ) : ℕ :=
  if n = 0 then 0
  else
    let L := natLog2Aux 200 n
    if L < 53 then n
    else
      let k := Nat.pow 2 (L - 52)
      roundHalfEvenNat n k * k

/-- Binary64 addition of two sub-counter values in the 2^(-56) scale:
the sum of two grid values is exact, then rounded. -/
def faddScaled (x y : ℕ) : ℕ := flScaled (x + y)

/-- The Python float literal 0.1 (binary64 value 3602879701896397×2^(-55))
in the 2^(-56) scale. -/
def float_tenth_scaled : ℕ := 7205759403792794

/-- The three counters of InputMonitor (keyboard presses, mouse presses,
float mouse-move sub-counter in the 2^(-56) scale). -/
structure InputCounters where
  keyboard_count : ℕ
  mouse_click_count : ℕ
  mouse_move_count : ℕ
deriving DecidableEq

/-- One input event delivered to the InputMonitor listeners. -/
inductive InputEvent where
  | key_press : InputEvent
  | mouse_click : Bool → InputEvent
  | mouse_move : InputEvent
deriving DecidableEq

/-- The three listener callbacks _on_key_press, _on_mouse_click,
_on_mouse_move of src/monitors/input_monitor.py as one step function
(each callback runs under the shared lock, so events apply sequentially). -/
def inputStep (s : InputCounters) : InputEvent → InputCounters
  | InputEvent.key_press =>
      { s with keyboard_count := s.keyboard_count + 1 }
  | InputEvent.mouse_click pressed =>
      if pressed then { s with mouse_click_count := s.mouse_click_count + 1 } else s
  | InputEvent.mouse_move =>
      { s with mouse_move_count := faddScaled s.mouse_move_count float_tenth_scaled }

/-- A sequence of input events applied in order. -/
def applyEvents (s : InputCounters) (events : List InputEvent) : InputCounters :=
  events.foldl inputStep s

/-- InputMonitor._reset_counters: the all-zero counter state. -/
def _reset_counters : InputCounters :=
  { keyboard_count := 0, mouse_click_count := 0, mouse_move_count := 0 }

/-- The snapshot emitted by a drain (timestamp omitted). -/
structure InputSnapshot where
  keyboard_count : ℕ
  mouse_count : ℕ
deriving DecidableEq

/-- InputMonitor._get_and_reset_stats: emit the snapshot — mouse_count is
int(click_count + move_count), a binary64 addition of the exact click
count and the move sub-counter followed by truncation toward zero (floor,
as all values are nonnegative) — and zero all three counters. -/
def _get_and_reset_stats (s : InputCounters) : InputSnapshot × InputCounters :=
  ({ keyboard_count := s.keyboard_count,
     mouse_count := flScaled (s.mouse_click_count * 72057594037927936 + s.mouse_move_count)
       / 72057594037927936 },
   { keyboard_count := 0, mouse_click_count := 0, mouse_move_count := 0 })

/-- One row of the daily_summary table (id and created_at, which SQLite
autogenerates, are omitted; date is the ISO string and the conflict key). -/
structure DailySummaryRow where
  date : String
  work_minutes : ℤ
  game_minutes : ℤ
  entertainment_minutes : ℤ
  social_minutes : ℤ
  browse_minutes : ℤ
  other_minutes : ℤ
  total_active_minutes : ℤ
  avg_activity_score : ℚ
  mood_score : Option ℚ
  stress_score : Option ℚ
  summary_text : Option String
  wechat_post : Option String
deriving DecidableEq

/-- DatabaseManager.save_daily_summary from src/database/db_manager.py:
INSERT OR REPLACE keyed on the UNIQUE date column — SQLite deletes every
row conflicting on date, then inserts the new row. -/
def save_daily_summary (table : List DailySummaryRow) (row : DailySummaryRow) :
    List DailySummaryRow :=
  row :: table.filter (fun r => r.date != row.date)

/-- The category→minutes mapping returned by
DatabaseManager.get_category_duration_by_date: an association list with
distinct keys (one per category present on the date), empty when the date
has no activities. -/
def categoryLookup (category_minutes : List (String × ℤ)) (key : String) : ℤ :=
  (category_minutes.lookup key).getD 0

/-- The six .get(key, 0) reads main.py performs on the category mapping,
packaged as the structure the analysis functions consume. -/
def toCategoryMinutes (category_minutes : List (String × ℤ)) : CategoryMinutes :=
  { work := (categoryLookup category_minutes "work" : ℚ),
    game := (categoryLookup category_minutes "game" : ℚ),
    entertainment := (categoryLookup category_minutes "entertainment" : ℚ),
    social := (categoryLookup category_minutes "social" : ℚ),
    browse := (categoryLookup category_minutes "browse" : ℚ),
    other := (categoryLookup category_minutes "other" : ℚ) }

/-- Python sum(category_minutes.values()) on the queried mapping. -/
def sumValues (category_minutes : List (String × ℤ)) : ℤ :=
  (category_minutes.map Prod.snd).sum

/-- The observable outcome of one generate_daily_report run: whether the
Analyzer was invoked, the daily_summary table afterwards, and whether the
desktop notification was sent. -/
structure ReportOutcome where
  analyzer_called : Bool
  daily_summary : List DailySummaryRow
  notification_sent : Bool
deriving DecidableEq

/-- ActivityMonitorApp.generate_daily_report from src/main.py, as a
function of the values the persistence queries return for the target
date.  Empty category mapping: early return before the Analyzer runs,
before any summary write and before any notification.  Otherwise: ratio
analysis, AI/local analysis, summary upsert, notification. -/
def generate_daily_report (daily_summary_table : List DailySummaryRow)
    (target_date : String) (category_minutes : List (String × ℤ)) (avg_activity : ℚ)
    (provider : String) (openai_response anthropic_response : Except String AnalysisResult)
    (pick : ℕ) : ReportOutcome :=
  if category_minutes.isEmpty then
    { analyzer_called := false,
      daily_summary := daily_summary_table,
      notification_sent := false }
  else
    let cm := toCategoryMinutes category_minutes
    let productivity := analyze_productivity cm
    let daily_stats : DailyStats :=
      { category_minutes := cm,
        avg_activity_score := avg_activity,
        productivity_analysis := productivity }
    let analysis := analyze_daily_data provider openai_response anthropic_response
      daily_stats pick
    let total_minutes := sumValues category_minutes
    let row : DailySummaryRow :=
      { date := target_date,
        work_minutes := categoryLookup category_minutes "work",
        game_minutes := categoryLookup category_minutes "game",
        entertainment_minutes := categoryLookup category_minutes "entertainment",
        social_minutes := categoryLookup category_minutes "social",
        browse_minutes := categoryLookup category_minutes "browse",
        other_minutes := categoryLookup category_minutes "other",
        total_active_minutes := total_minutes,
        avg_activity_score := avg_activity,
        mood_score := some analysis.mood_score,
        stress_score := some analysis.stress_score,
        summary_text := some analysis.summary,
        wechat_post := some analysis.wechat_post }
    { analyzer_called := true,
      daily_summary := save_daily_summary daily_summary_table row,
      notification_sent := true }

/-! ## Helper lemmas -/

lemma round1_five : round1 5 = 5 := by with_unfolding_all decide

lemma round1_three : round1 3 = 3 := by with_unfolding_all decide

lemma categorize_eq_spec (p t : String) : categorize p t = categorizeSpec p t := by
  unfold categorize categorizeSpec
  cases hg : matchesCat "game" (combinedOf p t) <;>
  cases hw : matchesCat "work" (combinedOf p t) <;>
  cases he : matchesCat "entertainment" (combinedOf p t) <;>
  cases hs : matchesCat "social" (combinedOf p t) <;>
  cases hb : matchesCat "browse" (combinedOf p t) <;>
  simp [priority_order, List.find?, hg, hw, he, hs, hb]

lemma matchesCat_of_kw (c kw : String) (combined : String)
    (hmem : kw ∈ (APP_CATEGORIES.lookup c).getD [])
    (hsub : containsSub (pyLower kw) combined = true) :
    matchesCat c combined = true :=
  List.any_eq_true.mpr ⟨kw, hmem, hsub⟩

lemma singleton_isInfix_of_mem {a : Char} {l : List Char} (h : a ∈ l) :
    [a] <:+: l := by
  obtain ⟨s, t, rfl⟩ := List.append_of_mem h
  exact ⟨s, t, by simp⟩

lemma mem_combined_left {c : Char} {p t : String} (h : c ∈ (pyLower p).data) :
    c ∈ (combinedOf p t).data := by
  have hdata : (combinedOf p t).data
      = (pyLower p).data ++ (" ".data ++ (pyLower t).data) := by
    cases hp : pyLower p
    cases ht : pyLower t
    simp [combinedOf, hp, ht, String.data_append]
  rw [hdata]
  exact List.mem_append_left _ h

lemma x_mem_pyLower {p : String} (h : ".exe".data <:+ p.data) :
    'x' ∈ (pyLower p).data := by
  obtain ⟨s, hs⟩ := h
  have hx : 'x' ∈ p.data := by
    rw [← hs]
    refine List.mem_append_right _ ?_
    decide
  have hlow : Char.toLower 'x' = 'x' := by decide
  exact hlow ▸ List.mem_map_of_mem Char.toLower hx

lemma filter_eq_of_filter_ne (d : String) (l : List DailySummaryRow) :
    (l.filter (fun r => r.date != d)).filter (fun r => r.date == d) = [] := by
  induction l with
  | nil => rfl
  | cons a l ih =>
    by_cases had : a.date = d
    · simp [List.filter_cons, had, ih]
    · simp [List.filter_cons, had, ih]

lemma filter_ne_idem (d : String) (l : List DailySummaryRow) :
    (l.filter (fun r => r.date != d)).filter (fun r => r.date != d)
      = l.filter (fun r => r.date != d) := by
  induction l with
  | nil => rfl
  | cons a l ih =>
    by_cases had : a.date = d
    · simp [List.filter_cons, had, ih]
    · simp [List.filter_cons, had, ih]

lemma applyEvents_replicate_key_press (N : ℕ) (s : InputCounters) :
    applyEvents s (List.replicate N InputEvent.key_press)
      = { s with keyboard_count := s.keyboard_count + N } := by
  induction N generalizing s with
  | zero => simp [applyEvents]
  | succ n ih =>
    rw [List.replicate_succ]
    show applyEvents (inputStep s InputEvent.key_press) _ = _
    rw [ih]
    cases s
    simp [inputStep]
    omega

/-! ## Claim theorems -/

/-- C1: For every (nonnegative) category→minutes mapping, analyze_productivity
returns exactly {0, 0, 0, 50} when the total of the six category minutes is 0;
otherwise productivity_ratio = work/total×100, leisure_ratio =
(game+entertainment)/total×100, work_focus_score = work/(work+social+browse)×100
(or 0 when that denominator is 0), balance_score =
max(0, 100 − |productivity_ratio − 60| − |leisure_ratio − 30|), each rounded to
one decimal place; and {work:360, other:240} yields 60.0 / 0.0 / 70.0. -/
theorem analyze_productivity_ratio_spec (cm : CategoryMinutes)
    (hw : 0 ≤ cm.work) (hs : 0 ≤ cm.social) (hb : 0 ≤ cm.browse) :
    (totalMinutes cm = 0 →
      analyze_productivity cm =
        { productivity_ratio := 0, leisure_ratio := 0, work_focus_score := 0,
          balance_score := 50 }) ∧
    (totalMinutes cm ≠ 0 →
      analyze_productivity cm =
        { productivity_ratio := round1 (cm.work / totalMinutes cm * 100),
          leisure_ratio := round1 ((cm.game + cm.entertainment) / totalMinutes cm * 100),
          work_focus_score :=
            round1 (if cm.work + cm.social + cm.browse = 0 then 0
              else cm.work / (cm.work + cm.social + cm.browse) * 100),
          balance_score := round1 (max 0 (100 - |cm.work / totalMinutes cm * 100 - 60|
            - |(cm.game + cm.entertainment) / totalMinutes cm * 100 - 30|)) }) ∧
    ((analyze_productivity ⟨360, 0, 0, 0, 0, 240⟩).productivity_ratio = 60 ∧
     (analyze_productivity ⟨360, 0, 0, 0, 0, 240⟩).leisure_ratio = 0 ∧
     (analyze_productivity ⟨360, 0, 0, 0, 0, 240⟩).balance_score = 70) := by
  refine ⟨?_, ?_, ?_, ?_, ?_⟩
  · intro h
    simp only [totalMinutes] at h
    simp [analyze_productivity, h]
  · intro h
    simp only [totalMinutes] at h ⊢
    have hrel : (cm.work + cm.social + cm.browse > 0)
        ↔ ¬(cm.work + cm.social + cm.browse = 0) := by
      constructor
      · intro hp he
        rw [he] at hp
        exact lt_irrefl 0 hp
      · intro hne
        rcases lt_or_eq_of_le (by positivity : (0:ℚ) ≤ cm.work + cm.social + cm.browse)
          with h1 | h1
        · exact h1
        · exact absurd h1.symm hne
    simp only [analyze_productivity, if_neg h]
    by_cases hz : cm.work + cm.social + cm.browse = 0
    · rw [if_neg (by rw [hrel]; exact fun hc => hc hz), if_pos hz]
    · rw [if_pos (hrel.mpr hz), if_neg hz]
  · with_unfolding_all decide
  · with_unfolding_all decide
  · with_unfolding_all decide

/-- C1 witness: the theorem applied to {work:360, other:240}. -/
theorem analyze_productivity_ratio_spec_witness :
    ((0 : ℚ) ≤ 360 ∧ (0 : ℚ) ≤ 0) ∧
    ((analyze_productivity ⟨360, 0, 0, 0, 0, 240⟩).productivity_ratio = 60 ∧
     (analyze_productivity ⟨360, 0, 0, 0, 0, 240⟩).leisure_ratio = 0 ∧
     (analyze_productivity ⟨360, 0, 0, 0, 0, 240⟩).balance_score = 70) :=
  ⟨⟨by with_unfolding_all decide, by with_unfolding_all decide⟩,
   (analyze_productivity_ratio_spec ⟨360, 0, 0, 0, 0, 240⟩
     (by with_unfolding_all decide) (by with_unfolding_all decide)
     (by with_unfolding_all decide)).2.2⟩

/-- C2: _local_analysis returns mood_score = 5.0 and stress_score = 3.0 exactly
when the total minutes are 0; otherwise mood_score =
min(10, 5 + 5×(game+entertainment)/total) and stress_score =
min(10, 3 + 4×work/total + activity_score/25), each rounded to one decimal
place; and work=480 with activity 0 yields mood 5.0, stress 7.0. -/
theorem local_analysis_scores_spec (stats : DailyStats) (pick : ℕ) :
    (totalMinutes stats.category_minutes = 0 →
      (_local_analysis stats pick).mood_score = 5 ∧
      (_local_analysis stats pick).stress_score = 3) ∧
    (totalMinutes stats.category_minutes ≠ 0 →
      (_local_analysis stats pick).mood_score =
        round1 (min 10 (5 + 5 * ((stats.category_minutes.game
          + stats.category_minutes.entertainment) / totalMinutes stats.category_minutes))) ∧
      (_local_analysis stats pick).stress_score =
        round1 (min 10 (3 + 4 * (stats.category_minutes.work
          / totalMinutes stats.category_minutes) + stats.avg_activity_score / 25))) ∧
    ((_local_analysis ⟨⟨480, 0, 0, 0, 0, 0⟩, 0,
        analyze_productivity ⟨480, 0, 0, 0, 0, 0⟩⟩ 0).mood_score = 5 ∧
     (_local_analysis ⟨⟨480, 0, 0, 0, 0, 0⟩, 0,
        analyze_productivity ⟨480, 0, 0, 0, 0, 0⟩⟩ 0).stress_score = 7) := by
  refine ⟨?_, ?_, ?_, ?_⟩
  · intro h
    simp only [_local_analysis, if_pos h]
    exact ⟨round1_five, round1_three⟩
  · intro h
    simp only [_local_analysis, if_neg h]
    constructor
    · have hc : (stats.category_minutes.game + stats.category_minutes.entertainment)
          / totalMinutes stats.category_minutes * 5
          = 5 * ((stats.category_minutes.game + stats.category_minutes.entertainment)
            / totalMinutes stats.category_minutes) := mul_comm _ _
      rw [hc]
    · have hc : stats.category_minutes.work / totalMinutes stats.category_minutes * 4
          = 4 * (stats.category_minutes.work / totalMinutes stats.category_minutes) :=
        mul_comm _ _
      rw [hc]
  · with_unfolding_all decide
  · with_unfolding_all decide

/-- C2 witness: the theorem applied to work=480, everything else 0. -/
theorem local_analysis_scores_spec_witness :
    totalMinutes ⟨480, 0, 0, 0, 0, 0⟩ ≠ 0 ∧
    ((_local_analysis ⟨⟨480, 0, 0, 0, 0, 0⟩, 0,
        analyze_productivity ⟨480, 0, 0, 0, 0, 0⟩⟩ 0).mood_score = 5 ∧
     (_local_analysis ⟨⟨480, 0, 0, 0, 0, 0⟩, 0,
        analyze_productivity ⟨480, 0, 0, 0, 0, 0⟩⟩ 0).stress_score = 7) :=
  ⟨by with_unfolding_all decide,
   (local_analysis_scores_spec ⟨⟨480, 0, 0, 0, 0, 0⟩, 0,
     analyze_productivity ⟨480, 0, 0, 0, 0, 0⟩⟩ 0).2.2⟩

/-- C3: categorize equals the spec's first-match-in-priority-order function
(game > work > entertainment > social > browse, else "other"); when no
category's keyword list matches, the result is "other"; and any input whose
combined string contains both a configured game keyword and a configured
browse keyword is categorized "game". -/
theorem categorize_priority_spec (p t : String) :
    categorize p t = categorizeSpec p t ∧
    ((∀ c ∈ priority_order, matchesCat c (combinedOf p t) = false) →
      categorize p t = "other") ∧
    ((∃ kw ∈ (APP_CATEGORIES.lookup "game").getD [],
        containsSub (pyLower kw) (combinedOf p t) = true) →
     (∃ kw ∈ (APP_CATEGORIES.lookup "browse").getD [],
        containsSub (pyLower kw) (combinedOf p t) = true) →
      categorize p t = "game") := by
  refine ⟨categorize_eq_spec p t, ?_, ?_⟩
  · intro hall
    rw [categorize_eq_spec]
    unfold categorizeSpec
    simp [hall "game" (by simp [priority_order]), hall "work" (by simp [priority_order]),
      hall "entertainment" (by simp [priority_order]),
      hall "social" (by simp [priority_order]), hall "browse" (by simp [priority_order])]
  · intro hgame _
    obtain ⟨kw, hmem, hsub⟩ := hgame
    rw [categorize_eq_spec]
    unfold categorizeSpec
    simp [matchesCat_of_kw "game" kw _ hmem hsub]

/-- C3 witness: "minecraft" (game keyword) with title "chrome" (browse
keyword) resolves to game. -/
theorem categorize_priority_spec_witness :
    (∃ kw ∈ (APP_CATEGORIES.lookup "game").getD [],
      containsSub (pyLower kw) (combinedOf "minecraft" "chrome") = true) ∧
    (∃ kw ∈ (APP_CATEGORIES.lookup "browse").getD [],
      containsSub (pyLower kw) (combinedOf "minecraft" "chrome") = true) ∧
    categorize "minecraft" "chrome" = "game" := by
  refine ⟨?_, ?_, ?_⟩
  · decide
  · decide
  · exact (categorize_priority_spec "minecraft" "chrome").2.2 (by decide) (by decide)

/-- C4: a finalized window with start s and end e produces no segment when
e − s is below MIN_ACTIVITY_DURATION; otherwise exactly one segment with
duration_seconds = int(e − s) (round-down), and that value is at least
MIN_ACTIVITY_DURATION. -/
theorem record_window_activity_duration_spec (start_time end_time : ℚ) :
    (end_time - start_time < MIN_ACTIVITY_DURATION →
      _record_window_activity MIN_ACTIVITY_DURATION start_time end_time = none) ∧
    (MIN_ACTIVITY_DURATION ≤ end_time - start_time →
      _record_window_activity MIN_ACTIVITY_DURATION start_time end_time
          = some (pyInt (end_time - start_time)) ∧
        MIN_ACTIVITY_DURATION ≤ ((pyInt (end_time - start_time) : ℤ) : ℚ)) := by
  constructor
  · intro h
    simp only [_record_window_activity]
    rw [if_pos h]
  · intro h
    have h0 : (0:ℚ) ≤ end_time - start_time := by
      refine le_trans ?_ h
      rw [MIN_ACTIVITY_DURATION]
      norm_num
    constructor
    · simp only [_record_window_activity]
      rw [if_neg (not_lt.mpr h)]
    · rw [pyInt, if_pos h0]
      have h3 : (3:ℤ) ≤ ⌊end_time - start_time⌋ := by
        rw [Int.le_floor]
        rw [MIN_ACTIVITY_DURATION] at h
        exact_mod_cast h
      rw [MIN_ACTIVITY_DURATION]
      exact_mod_cast h3

/-- C4 witness: a window held from 0 to 5 seconds. -/
theorem record_window_activity_duration_spec_witness :
    MIN_ACTIVITY_DURATION ≤ (5:ℚ) - 0 ∧
    (_record_window_activity MIN_ACTIVITY_DURATION 0 5 = some (pyInt ((5:ℚ) - 0)) ∧
      MIN_ACTIVITY_DURATION ≤ ((pyInt ((5:ℚ) - 0) : ℤ) : ℚ)) :=
  ⟨by with_unfolding_all decide,
   (record_window_activity_duration_spec 0 5).2 (by with_unfolding_all decide)⟩

/-- C5 (failing-input evaluation): ten raw mouse-move events between drains,
with no mouse presses, leave the float sub-counter at
72057594037927928×2^(-56) = 9007199254740991/2^53 = 0.9999999999999999 —
the binary64 repeated sum of ten 0.1 increments — so the drained
mouse_count is 0, not the 1 the claim (and the code's own per-ten-moves
comment) requires. -/
theorem mouse_move_ten_events_truncation :
    (applyEvents _reset_counters (List.replicate 10 InputEvent.mouse_move)).mouse_move_count
        = 72057594037927928 ∧
    (_get_and_reset_stats
        (applyEvents _reset_counters (List.replicate 10 InputEvent.mouse_move))).1.mouse_count
        = 0 := by
  constructor
  · decide
  · decide

/-- C6: N key presses entirely between two drains yield keyboard_count = N
in the next snapshot; every drain leaves all three counters at zero; and a
drain of the reset state (no intervening events) emits keyboard_count = 0
and mouse_count = 0 — nothing lost or double-counted across the boundary. -/
theorem input_drain_count_conserving (N : ℕ) (s : InputCounters) :
    (_get_and_reset_stats
        (applyEvents _reset_counters (List.replicate N InputEvent.key_press))).1.keyboard_count
      = N ∧
    (_get_and_reset_stats s).2 = _reset_counters ∧
    (_get_and_reset_stats _reset_counters).1.keyboard_count = 0 ∧
    (_get_and_reset_stats _reset_counters).1.mouse_count = 0 := by
  refine ⟨?_, rfl, rfl, by decide⟩
  rw [applyEvents_replicate_key_press]
  simp [_get_and_reset_stats, _reset_counters]

/-- C7: analyze_daily_data is total, and falls back to the Local strategy's
output whenever the provider is neither "openai" nor "anthropic", or the
selected remote call raises. -/
theorem analyze_daily_data_fallback (provider : String)
    (openai_response anthropic_response : Except String AnalysisResult)
    (stats : DailyStats) (pick : ℕ) :
    (provider ≠ "openai" → provider ≠ "anthropic" →
      analyze_daily_data provider openai_response anthropic_response stats pick
        = _local_analysis stats pick) ∧
    (∀ e, provider = "openai" → openai_response = Except.error e →
      analyze_daily_data provider openai_response anthropic_response stats pick
        = _local_analysis stats pick) ∧
    (∀ e, provider = "anthropic" → anthropic_response = Except.error e →
      analyze_daily_data provider openai_response anthropic_response stats pick
        = _local_analysis stats pick) := by
  refine ⟨?_, ?_, ?_⟩
  · intro h1 h2
    simp [analyze_daily_data, if_neg h1, if_neg h2]
  · intro e h1 h2
    subst h1
    subst h2
    simp [analyze_daily_data]
  · intro e h1 h2
    subst h1
    subst h2
    simp [analyze_daily_data]

/-- C7 witness: an unconfigured provider, with both remote calls failing,
produces the Local strategy's output. -/
theorem analyze_daily_data_fallback_witness :
    ("gemini" ≠ "openai") ∧ ("gemini" ≠ "anthropic") ∧
    analyze_daily_data "gemini" (Except.error "boom") (Except.error "boom")
        ⟨⟨480, 0, 0, 0, 0, 0⟩, 0, analyze_productivity ⟨480, 0, 0, 0, 0, 0⟩⟩ 0
      = _local_analysis ⟨⟨480, 0, 0, 0, 0, 0⟩, 0,
          analyze_productivity ⟨480, 0, 0, 0, 0, 0⟩⟩ 0 :=
  ⟨by decide, by decide,
   (analyze_daily_data_fallback "gemini" (Except.error "boom") (Except.error "boom")
     ⟨⟨480, 0, 0, 0, 0, 0⟩, 0, analyze_productivity ⟨480, 0, 0, 0, 0, 0⟩⟩ 0).1
     (by decide) (by decide)⟩

/-- C8: when the category-minutes query for the target date is empty,
generate_daily_report exits early: the Analyzer is not called, the
daily_summary table is unchanged, and no notification is sent. -/
theorem generate_daily_report_empty_early_exit (daily_summary_table : List DailySummaryRow)
    (target_date : String) (avg_activity : ℚ) (provider : String)
    (openai_response anthropic_response : Except String AnalysisResult) (pick : ℕ) :
    generate_daily_report daily_summary_table target_date [] avg_activity provider
        openai_response anthropic_response pick
      = { analyzer_called := false, daily_summary := daily_summary_table,
          notification_sent := false } := rfl

/-- C9: the daily-summary upsert is a full replace keyed on date: after
writing two rows with the same date, exactly the latest row stands for
that date (every field from the latest write), and rows for other dates
are untouched. -/
theorem save_daily_summary_idempotent_replace (table : List DailySummaryRow)
    (r1 r2 : DailySummaryRow) (h : r1.date = r2.date) :
    (save_daily_summary (save_daily_summary table r1) r2).filter
        (fun r => r.date == r2.date) = [r2] ∧
    (save_daily_summary (save_daily_summary table r1) r2).filter
        (fun r => r.date != r2.date)
      = table.filter (fun r => r.date != r2.date) := by
  simp only [save_daily_summary, List.filter_cons, h]
  constructor
  · simp [filter_eq_of_filter_ne, h]
  · simp [h, filter_ne_idem]

/-- C9 witness: two writes for 2025-01-01 with different values leave only
the second row for that date. -/
theorem save_daily_summary_idempotent_replace_witness :
    (DailySummaryRow.date ⟨"2025-01-01", 60, 0, 0, 0, 0, 0, 60, 10, some 5, some 3,
        some "a", some "b"⟩
      = DailySummaryRow.date ⟨"2025-01-01", 120, 30, 0, 0, 0, 0, 150, 20, some 7,
        some 4, some "c", some "d"⟩) ∧
    (save_daily_summary (save_daily_summary []
        ⟨"2025-01-01", 60, 0, 0, 0, 0, 0, 60, 10, some 5, some 3, some "a", some "b"⟩)
        ⟨"2025-01-01", 120, 30, 0, 0, 0, 0, 150, 20, some 7, some 4, some "c", some "d"⟩).filter
        (fun r => r.date == "2025-01-01")
      = [⟨"2025-01-01", 120, 30, 0, 0, 0, 0, 150, 20, some 7, some 4, some "c", some "d"⟩] :=
  ⟨by decide,
   (save_daily_summary_idempotent_replace []
     ⟨"2025-01-01", 60, 0, 0, 0, 0, 0, 60, 10, some 5, some 3, some "a", some "b"⟩
     ⟨"2025-01-01", 120, 30, 0, 0, 0, 0, 150, 20, some 7, some 4, some "c", some "d"⟩
     (by decide)).1⟩

/-- C10: because the social keyword list contains the single letter "x",
any input whose combined lower-cased string contains "x" and matches no
game, work or entertainment keyword is categorized "social"; consequently
a process name ending in ".exe" is never categorized "browse" or "other". -/
theorem social_x_keyword_shadowing (p t : String) :
    (containsSub "x" (combinedOf p t) = true →
     matchesCat "game" (combinedOf p t) = false →
     matchesCat "work" (combinedOf p t) = false →
     matchesCat "entertainment" (combinedOf p t) = false →
      categorize p t = "social") ∧
    (".exe".data <:+ p.data →
      categorize p t ≠ "browse" ∧ categorize p t ≠ "other") := by
  constructor
  · intro hx hg hw he
    have hsoc : matchesCat "social" (combinedOf p t) = true :=
      matchesCat_of_kw "social" "x" _ (by decide) hx
    rw [categorize_eq_spec]
    unfold categorizeSpec
    simp [hg, hw, he, hsoc]
  · intro hsuf
    have hxm : 'x' ∈ (combinedOf p t).data := mem_combined_left (x_mem_pyLower hsuf)
    have hx : containsSub "x" (combinedOf p t) = true := by
      unfold containsSub
      exact decide_eq_true (singleton_isInfix_of_mem hxm)
    have hsoc : matchesCat "social" (combinedOf p t) = true :=
      matchesCat_of_kw "social" "x" _ (by decide) hx
    rw [categorize_eq_spec]
    unfold categorizeSpec
    cases hg : matchesCat "game" (combinedOf p t) <;>
    cases hw : matchesCat "work" (combinedOf p t) <;>
    cases he : matchesCat "entertainment" (combinedOf p t) <;>
    simp [hg, hw, he, hsoc]

/-- C10 witness: "chrome.exe" contains "x", matches no game/work/entertainment
keyword, and is categorized "social" — not "browse" despite the "chrome"
keyword, and not "other". -/
theorem social_x_keyword_shadowing_witness :
    containsSub "x" (combinedOf "chrome.exe" "") = true ∧
    matchesCat "game" (combinedOf "chrome.exe" "") = false ∧
    matchesCat "work" (combinedOf "chrome.exe" "") = false ∧
    matchesCat "entertainment" (combinedOf "chrome.exe" "") = false ∧
    categorize "chrome.exe" "" = "social" ∧
    (".exe".data <:+ "chrome.exe".data) ∧
    (categorize "chrome.exe" "" ≠ "browse" ∧ categorize "chrome.exe" "" ≠ "other") := by
  refine ⟨by decide, by decide, by decide, by decide, ?_, by decide, ?_⟩
  · exact (social_x_keyword_shadowing "chrome.exe" "").1 (by decide) (by decide)
      (by decide) (by decide)
  · exact (social_x_keyword_shadowing "chrome.exe" "").2 (by decide)

end DayReview
